import Mathlib

/-!
Verification of the solar LED runtime calculator (`Led_cal.py`).

The engine is embedded shallowly: Python floats are modelled by `ℚ`
(the spec treats all quantities as reals and every constant in the
source is an exact decimal), slider values by `ℕ`, and the two pure
cores — energy accounting and the 24-hour SOC simulation — as
executable Lean functions translated line by line from the source.
-/

namespace SolarCal

/-- Derived constant `solar_efficiency = 0.75` (source line 18). -/
def solar_efficiency : ℚ := 0.75

/-- Derived constant `sun_hours = 5` (source line 19). -/
def sun_hours : ℚ := 5

/-- Depth of discharge `dod = 0.8` (source line 51). -/
def dod : ℚ := 0.8

/-- Hardware parameters collected by the input widgets (source lines 11-16). -/
structure HardwareConfig where
  system_voltage : ℚ
  load_power_w : ℚ
  battery_capacity_wh : ℚ
  solar_panel_w : ℚ
deriving DecidableEq

/-- One dimming stage: slider values of source lines 29-30. -/
structure DimmingStage where
  brightness_pct : ℕ
  duration_hours : ℕ
deriving DecidableEq

/-- Validity contract for the hardware: voltage from the radio set
{12.8, 25.6}, the three number inputs have `min_value = 1.0`, so all
are positive (source lines 11-16). -/
def HardwareConfig.Valid (hw : HardwareConfig) : Prop :=
  (hw.system_voltage = 12.8 ∨ hw.system_voltage = 25.6) ∧
  0 < hw.load_power_w ∧ 0 < hw.battery_capacity_wh ∧ 0 < hw.solar_panel_w

/-- Validity contract for one stage: sliders range over [0,100] and [0,12]. -/
def DimmingStage.Valid (s : DimmingStage) : Prop :=
  s.brightness_pct ≤ 100 ∧ s.duration_hours ≤ 12

/-- Exactly 4 stages, each in range (source loop `for i in range(1, 5)`). -/
def ValidStages (stages : List DimmingStage) : Prop :=
  stages.length = 4 ∧ ∀ s ∈ stages, s.Valid

instance (hw : HardwareConfig) : Decidable hw.Valid := by
  unfold HardwareConfig.Valid; infer_instance

instance (s : DimmingStage) : Decidable s.Valid := by
  unfold DimmingStage.Valid; infer_instance

instance (stages : List DimmingStage) : Decidable (ValidStages stages) := by
  unfold ValidStages; infer_instance

/-- Per-stage energy, source lines 31-46: `load_power * (brightness / 100) * duration`
when `duration > 0 and brightness > 0`, else exactly 0. -/
def stageEnergy (load : ℚ) (s : DimmingStage) : ℚ :=
  if 0 < s.duration_hours ∧ 0 < s.brightness_pct then
    load * ((s.brightness_pct : ℚ) / 100) * (s.duration_hours : ℚ)
  else 0

/-- Accumulated `total_energy` over the 4 stages (source lines 25, 39). -/
def totalEnergy (load : ℚ) (stages : List DimmingStage) : ℚ :=
  (stages.map (stageEnergy load)).sum

/-- The derived energy-accounting record (source lines 20, 49-53). -/
structure EnergyBalance where
  total_night_energy_wh : ℚ
  solar_recovery_wh : ℚ
  energy_balance_wh : ℚ
  battery_remaining_wh : ℚ
  required_battery_wh : ℚ
  required_battery_ah : ℚ
deriving DecidableEq

/-- Energy accounting, source lines 20 and 49-53:
`solar_energy = solar_panel_wattage * sun_hours * solar_efficiency`,
`energy_balance = solar_energy - total_energy`,
`battery_remaining = battery_capacity_wh - total_energy`,
`required_battery_wh = total_energy / dod`,
`required_battery_ah = required_battery_wh / system_voltage`. -/
def computeEnergyBalance (hw : HardwareConfig) (stages : List DimmingStage) : EnergyBalance :=
  let total := totalEnergy hw.load_power_w stages
  let solar := hw.solar_panel_w * sun_hours * solar_efficiency
  let reqWh := total / dod
  { total_night_energy_wh := total
    solar_recovery_wh := solar
    energy_balance_wh := solar - total
    battery_remaining_wh := hw.battery_capacity_wh - total
    required_battery_wh := reqWh
    required_battery_ah := reqWh / hw.system_voltage }

/-- One discharge hour, source lines 102-104:
`consumption = load_power * (brightness / 100)`;
`soc -= (consumption / battery_wh) * 100`; `soc = max(soc, 0)`. -/
def dischargeStep (load battery : ℚ) (b : ℕ) (soc : ℚ) : ℚ :=
  max (soc - load * ((b : ℚ) / 100) / battery * 100) 0

/-- The per-hour brightness sequence of the discharge loop: source lines
100-101 iterate each stage for `duration_hours` hours at its brightness,
whether or not the stage's energy guard fired (both branches of lines
31-46 append the stage, keeping its brightness and duration). -/
def nightBrightness : List DimmingStage → List ℕ
  | [] => []
  | s :: rest => List.replicate s.duration_hours s.brightness_pct ++ nightBrightness rest

/-- Run the discharge loop over a list of per-hour brightness values,
returning the appended samples and the final `soc` (source lines 100-106). -/
def runDischarge (load battery : ℚ) : List ℕ → ℚ → List ℚ × ℚ
  | [], soc => ([], soc)
  | b :: bs, soc =>
    let s := dischargeStep load battery b soc
    let r := runDischarge load battery bs s
    (s :: r.1, r.2)

/-- Source line 112: `charge_per_hour = (solar_panel_wattage * solar_efficiency / battery_wh) * 100`. -/
def chargePerHour (hw : HardwareConfig) : ℚ :=
  hw.solar_panel_w * solar_efficiency / hw.battery_capacity_wh * 100

/-- One charging hour, source lines 114-115: `soc += charge_per_hour`; `soc = min(soc, 100)`. -/
def chargeStep (c soc : ℚ) : ℚ := min (soc + c) 100

/-- The charging loop (`for _ in range(5)`, source lines 113-117),
returning the appended samples and the final `soc`. -/
def runCharge (c : ℚ) : ℕ → ℚ → List ℚ × ℚ
  | 0, soc => ([], soc)
  | n + 1, soc =>
    let s := chargeStep c soc
    let r := runCharge c n s
    (s :: r.1, r.2)

/-- Total scheduled discharge hours (the number of iterations of the
nested loops at source lines 100-101). -/
def sumDurations (stages : List DimmingStage) : ℕ :=
  (stages.map (fun s => s.duration_hours)).sum

/-- The full SOC simulation, source lines 95-121: discharge through every
stage hour starting from `soc = 100`, hold flat while `hr_pointer < 16`,
charge for exactly 5 hours, then hold flat while `hr_pointer < 24`.
The two `while` loops become `List.replicate` of the ℕ-truncated gaps. -/
def simulateSoc (hw : HardwareConfig) (stages : List DimmingStage) : List ℚ :=
  let d := runDischarge hw.load_power_w hw.battery_capacity_wh (nightBrightness stages) 100
  let hold := List.replicate (16 - d.1.length) d.2
  let c := runCharge (chargePerHour hw) 5 d.2
  let idle := List.replicate (24 - (max d.1.length 16 + 5)) c.2
  d.1 ++ hold ++ c.1 ++ idle

/-- Checked energy accounting: Python raises `ZeroDivisionError` when a
float divisor is zero, so the two divisions of source lines 52-53 are
guarded; on valid input both guards pass. -/
def computeEnergyBalanceChecked (hw : HardwareConfig) (stages : List DimmingStage) :
    Option EnergyBalance :=
  if dod = 0 then none
  else if hw.system_voltage = 0 then none
  else some (computeEnergyBalance hw stages)

/-- Checked simulation: every division in source lines 100-117 has divisor
`battery_wh`, so that is the one guard. -/
def simulateSocChecked (hw : HardwareConfig) (stages : List DimmingStage) :
    Option (List ℚ) :=
  if hw.battery_capacity_wh = 0 then none
  else some (simulateSoc hw stages)

/-- Scenario A hardware: defaults of the source widgets. -/
def hwA : HardwareConfig := ⟨12.8, 40, 480, 120⟩

/-- Scenario A stages: the default slider values (100%,4h),(50%,6h),(30%,6h),(0%,0h). -/
def stagesA : List DimmingStage := [⟨100, 4⟩, ⟨50, 6⟩, ⟨30, 6⟩, ⟨0, 0⟩]

/-- A valid schedule whose durations sum to 24 hours: the discharge loop
then runs past hour 16 and the timeline overruns 24 samples. -/
def stagesOverrun : List DimmingStage := [⟨100, 12⟩, ⟨50, 12⟩, ⟨30, 0⟩, ⟨0, 0⟩]

/-- Scenario B hardware: a 50 Wh battery that the 40 W load depletes
within two discharge hours. -/
def hwB : HardwareConfig := ⟨12.8, 40, 50, 120⟩

lemma runDischarge_length (load battery : ℚ) (bs : List ℕ) (soc : ℚ) :
    (runDischarge load battery bs soc).1.length = bs.length := by
  induction bs generalizing soc with
  | nil => rfl
  | cons b bs ih => simp [runDischarge, ih]

lemma runCharge_length (c : ℚ) (n : ℕ) (soc : ℚ) :
    (runCharge c n soc).1.length = n := by
  induction n generalizing soc with
  | zero => rfl
  | succ n ih => simp [runCharge, ih]

lemma nightBrightness_length (stages : List DimmingStage) :
    (nightBrightness stages).length = sumDurations stages := by
  induction stages with
  | nil => rfl
  | cons s rest ih => simp [nightBrightness, sumDurations, ih]

lemma simulateSoc_length (hw : HardwareConfig) (stages : List DimmingStage) :
    (simulateSoc hw stages).length = max 24 (sumDurations stages + 5) := by
  simp [simulateSoc, runDischarge_length, runCharge_length, nightBrightness_length]
  omega

/-- Stages used for the order-sensitivity part of C5: full brightness for
one hour then dark for one hour, versus the swapped order. -/
def stagesSwap1 : List DimmingStage := [⟨100, 1⟩, ⟨0, 1⟩, ⟨0, 0⟩, ⟨0, 0⟩]

/-- The same multiset of stages as `stagesSwap1` with the first two swapped. -/
def stagesSwap2 : List DimmingStage := [⟨0, 1⟩, ⟨100, 1⟩, ⟨0, 0⟩, ⟨0, 0⟩]

/-- C1 (amended): for every valid input whose stage durations sum to at
most 19 hours, `simulateSoc` returns a timeline of exactly 24 SOC samples.
(The discharge loop runs one iteration per scheduled hour, so with more
than 19 scheduled hours the timeline overruns 24 samples.) -/
theorem C1_timeline_has_24_samples (hw : HardwareConfig) (stages : List DimmingStage)
    (h1 : hw.Valid) (h2 : ValidStages stages) (h3 : sumDurations stages ≤ 19) :
    (simulateSoc hw stages).length = 24 := by
  rw [simulateSoc_length]; omega

/-- C1 counterexample: a valid input (durations 12+12+0+0 = 24 hours,
all sliders in range) whose timeline has 29 samples, not 24. -/
theorem C1_counterexample :
    hwA.Valid ∧ ValidStages stagesOverrun ∧ (simulateSoc hwA stagesOverrun).length ≠ 24 :=
  ⟨by norm_num [hwA, HardwareConfig.Valid], by decide, by rw [simulateSoc_length]; decide⟩

/-- C1 witness: Scenario A satisfies the hypotheses and gets 24 samples. -/
theorem C1_timeline_has_24_samples_witness :
    hwA.Valid ∧ ValidStages stagesA ∧ sumDurations stagesA ≤ 19 ∧
      (simulateSoc hwA stagesA).length = 24 :=
  ⟨by norm_num [hwA, HardwareConfig.Valid], by decide, by decide,
    C1_timeline_has_24_samples hwA stagesA (by norm_num [hwA, HardwareConfig.Valid])
      (by decide) (by decide)⟩

/-- C3: on every valid input `computeEnergyBalance` returns exactly the five
derived formulas of the spec, and on Scenario A's inputs it returns
total 352 Wh, solar recovery 450 Wh, balance 98 Wh, remaining 128 Wh,
required 440 Wh and 34.375 Ah. -/
theorem C3_energy_balance_formulas :
    (∀ (hw : HardwareConfig) (stages : List DimmingStage), hw.Valid → ValidStages stages →
      computeEnergyBalance hw stages =
        { total_night_energy_wh := totalEnergy hw.load_power_w stages
          solar_recovery_wh := hw.solar_panel_w * 5 * 0.75
          energy_balance_wh := hw.solar_panel_w * 5 * 0.75 - totalEnergy hw.load_power_w stages
          battery_remaining_wh := hw.battery_capacity_wh - totalEnergy hw.load_power_w stages
          required_battery_wh := totalEnergy hw.load_power_w stages / 0.8
          required_battery_ah := totalEnergy hw.load_power_w stages / 0.8 / hw.system_voltage }) ∧
    computeEnergyBalance hwA stagesA =
      { total_night_energy_wh := 352, solar_recovery_wh := 450, energy_balance_wh := 98,
        battery_remaining_wh := 128, required_battery_wh := 440, required_battery_ah := 34.375 } := by
  constructor
  · intro hw stages _ _; rfl
  · norm_num [computeEnergyBalance, totalEnergy, stageEnergy, hwA, stagesA, dod, sun_hours,
      solar_efficiency, EnergyBalance.mk.injEq]

/-- C3 witness: the formula part applied at Scenario A. -/
theorem C3_energy_balance_formulas_witness :
    hwA.Valid ∧ ValidStages stagesA ∧
      computeEnergyBalance hwA stagesA =
        { total_night_energy_wh := totalEnergy hwA.load_power_w stagesA
          solar_recovery_wh := hwA.solar_panel_w * 5 * 0.75
          energy_balance_wh := hwA.solar_panel_w * 5 * 0.75 - totalEnergy hwA.load_power_w stagesA
          battery_remaining_wh := hwA.battery_capacity_wh - totalEnergy hwA.load_power_w stagesA
          required_battery_wh := totalEnergy hwA.load_power_w stagesA / 0.8
          required_battery_ah := totalEnergy hwA.load_power_w stagesA / 0.8 / hwA.system_voltage } :=
  ⟨by norm_num [hwA, HardwareConfig.Valid], by decide,
    C3_energy_balance_formulas.1 hwA stagesA (by norm_num [hwA, HardwareConfig.Valid]) (by decide)⟩

/-- C4: a stage's energy is exactly 0 whenever its duration or brightness
is 0, even if the other factor is non-zero; otherwise it equals
`load_power_w * (brightness_pct / 100) * duration_hours`. -/
theorem C4_stage_energy_zero_guard (load : ℚ) (s : DimmingStage) :
    ((s.duration_hours = 0 ∨ s.brightness_pct = 0) → stageEnergy load s = 0) ∧
    (s.duration_hours ≠ 0 → s.brightness_pct ≠ 0 →
      stageEnergy load s = load * ((s.brightness_pct : ℚ) / 100) * (s.duration_hours : ℚ)) := by
  constructor
  · intro h; unfold stageEnergy; rw [if_neg (by omega)]
  · intro hd hb; unfold stageEnergy; rw [if_pos (by omega)]

/-- C4 witness: zero-duration and zero-brightness stages with a non-zero
other factor get energy 0; a fully non-degenerate stage gets the formula. -/
theorem C4_stage_energy_zero_guard_witness :
    stageEnergy 40 ⟨100, 0⟩ = 0 ∧ stageEnergy 40 ⟨0, 6⟩ = 0 ∧
      stageEnergy 40 ⟨100, 4⟩ = 40 * (((100 : ℕ) : ℚ) / 100) * ((4 : ℕ) : ℚ) :=
  ⟨(C4_stage_energy_zero_guard 40 ⟨100, 0⟩).1 (Or.inl rfl),
   (C4_stage_energy_zero_guard 40 ⟨0, 6⟩).1 (Or.inr rfl),
   (C4_stage_energy_zero_guard 40 ⟨100, 4⟩).2 (by decide) (by decide)⟩

/-- C5: `totalEnergy` is invariant under any permutation of the stages,
yet there is a valid input and a permutation of its stages on which
`simulateSoc` produces a different timeline. -/
theorem C5_sum_commutes_timeline_does_not :
    (∀ (load : ℚ) (s1 s2 : List DimmingStage), s1.Perm s2 →
      totalEnergy load s1 = totalEnergy load s2) ∧
    (hwA.Valid ∧ ValidStages stagesSwap1 ∧ ValidStages stagesSwap2 ∧
      stagesSwap1.Perm stagesSwap2 ∧
      simulateSoc hwA stagesSwap1 ≠ simulateSoc hwA stagesSwap2) := by
  refine ⟨fun load s1 s2 h => (h.map (stageEnergy load)).sum_eq, ?_, ?_, ?_, ?_, ?_⟩
  · norm_num [hwA, HardwareConfig.Valid]
  · decide
  · decide
  · decide
  · norm_num [simulateSoc, runDischarge, nightBrightness, dischargeStep, chargeStep, runCharge,
      chargePerHour, hwA, stagesSwap1, stagesSwap2, solar_efficiency, max_def, min_def]

/-- C5 witness: the permutation-invariance part applied to the concrete
swapped schedules. -/
theorem C5_sum_commutes_witness :
    totalEnergy 40 stagesSwap1 = totalEnergy 40 stagesSwap2 :=
  C5_sum_commutes_timeline_does_not.1 40 stagesSwap1 stagesSwap2 (by decide)

lemma hourlyDrop_nonneg {load battery : ℚ} (hl : 0 ≤ load) (hb : 0 < battery) (b : ℕ) :
    0 ≤ load * ((b : ℚ) / 100) / battery * 100 := by
  have h1 : (0 : ℚ) ≤ (b : ℚ) / 100 := by positivity
  exact mul_nonneg (div_nonneg (mul_nonneg hl h1) hb.le) (by norm_num)

lemma dischargeStep_nonneg (load battery : ℚ) (b : ℕ) (soc : ℚ) :
    0 ≤ dischargeStep load battery b soc :=
  le_max_right _ _

lemma dischargeStep_le_100 {load battery : ℚ} (hl : 0 ≤ load) (hb : 0 < battery)
    (b : ℕ) {soc : ℚ} (hsoc : soc ≤ 100) : dischargeStep load battery b soc ≤ 100 := by
  have hd := hourlyDrop_nonneg hl hb b
  exact max_le (by linarith) (by norm_num)

lemma runDischarge_bounds {load battery : ℚ} (hl : 0 ≤ load) (hb : 0 < battery) :
    ∀ (bs : List ℕ) (soc : ℚ), 0 ≤ soc → soc ≤ 100 →
      (∀ x ∈ (runDischarge load battery bs soc).1, 0 ≤ x ∧ x ≤ 100) ∧
      0 ≤ (runDischarge load battery bs soc).2 ∧
      (runDischarge load battery bs soc).2 ≤ 100 := by
  intro bs
  induction bs with
  | nil => intro soc h0 h100; exact ⟨by simp [runDischarge], h0, h100⟩
  | cons b rest ih =>
    intro soc h0 h100
    have hs0 : 0 ≤ dischargeStep load battery b soc := dischargeStep_nonneg _ _ _ _
    have hs1 : dischargeStep load battery b soc ≤ 100 := dischargeStep_le_100 hl hb b h100
    have := ih (dischargeStep load battery b soc) hs0 hs1
    refine ⟨?_, this.2⟩
    intro x hx
    simp only [runDischarge, List.mem_cons] at hx
    rcases hx with rfl | hx
    · exact ⟨hs0, hs1⟩
    · exact this.1 x hx

lemma chargePerHour_nonneg {hw : HardwareConfig} (hs : 0 < hw.solar_panel_w)
    (hb : 0 < hw.battery_capacity_wh) : 0 ≤ chargePerHour hw := by
  unfold chargePerHour solar_efficiency
  exact mul_nonneg (div_nonneg (mul_nonneg hs.le (by norm_num)) hb.le) (by norm_num)

lemma chargeStep_nonneg {c soc : ℚ} (hc : 0 ≤ c) (h0 : 0 ≤ soc) : 0 ≤ chargeStep c soc :=
  le_min (by linarith) (by norm_num)

lemma chargeStep_le_100 (c soc : ℚ) : chargeStep c soc ≤ 100 :=
  min_le_right _ _

lemma runCharge_bounds {c : ℚ} (hc : 0 ≤ c) :
    ∀ (n : ℕ) (soc : ℚ), 0 ≤ soc → soc ≤ 100 →
      (∀ x ∈ (runCharge c n soc).1, 0 ≤ x ∧ x ≤ 100) ∧
      0 ≤ (runCharge c n soc).2 ∧ (runCharge c n soc).2 ≤ 100 := by
  intro n
  induction n with
  | zero => intro soc h0 h100; exact ⟨by simp [runCharge], h0, h100⟩
  | succ n ih =>
    intro soc h0 h100
    have hs0 : 0 ≤ chargeStep c soc := chargeStep_nonneg hc h0
    have hs1 : chargeStep c soc ≤ 100 := chargeStep_le_100 _ _
    have := ih (chargeStep c soc) hs0 hs1
    refine ⟨?_, this.2⟩
    intro x hx
    simp only [runCharge, List.mem_cons] at hx
    rcases hx with rfl | hx
    · exact ⟨hs0, hs1⟩
    · exact this.1 x hx

/-- C2: every sample of the SOC timeline of a valid input lies in [0,100]. -/
theorem C2_soc_in_range (hw : HardwareConfig) (stages : List DimmingStage)
    (h1 : hw.Valid) (h2 : ValidStages stages) :
    ∀ x ∈ simulateSoc hw stages, 0 ≤ x ∧ x ≤ 100 := by
  obtain ⟨_, hl, hb, hs⟩ := h1
  have hD := runDischarge_bounds hl.le hb (nightBrightness stages) 100 (by norm_num) le_rfl
  have hcph := chargePerHour_nonneg hs hb
  have hC := runCharge_bounds hcph 5 _ hD.2.1 hD.2.2
  intro x hx
  simp only [simulateSoc, List.mem_append] at hx
  rcases hx with ((hx | hx) | hx) | hx
  · exact hD.1 x hx
  · rw [List.eq_of_mem_replicate hx]; exact hD.2
  · exact hC.1 x hx
  · rw [List.eq_of_mem_replicate hx]; exact hC.2

/-- C2 witness: Scenario A is valid and the sample 100 (hour 19 onward)
is in range by the theorem. -/
theorem C2_soc_in_range_witness : 0 ≤ (100 : ℚ) ∧ (100 : ℚ) ≤ 100 :=
  C2_soc_in_range hwA stagesA (by norm_num [hwA, HardwareConfig.Valid]) (by decide) 100
    (by norm_num [simulateSoc, runDischarge, nightBrightness, dischargeStep, chargeStep,
      runCharge, chargePerHour, hwA, stagesA, solar_efficiency, max_def, min_def])

lemma dischargeStep_of_zero {load battery : ℚ} (hl : 0 ≤ load) (hb : 0 < battery) (b : ℕ) :
    dischargeStep load battery b 0 = 0 := by
  have := hourlyDrop_nonneg hl hb b
  exact max_eq_right (by linarith)

lemma runDischarge_from_zero {load battery : ℚ} (hl : 0 ≤ load) (hb : 0 < battery) :
    ∀ bs : List ℕ, (runDischarge load battery bs 0).1 = List.replicate bs.length 0 := by
  intro bs
  induction bs with
  | nil => rfl
  | cons b rest ih =>
    simp [runDischarge, dischargeStep_of_zero hl hb b, ih, List.replicate_succ]

lemma getD_replicate_self {α : Type _} (x d : α) :
    ∀ (n i : ℕ), i < n → (List.replicate n x).getD i d = x := by
  intro n
  induction n with
  | zero => intro i h; exact absurd h (Nat.not_lt_zero i)
  | succ n ih =>
    intro i h
    cases i with
    | zero => simp [List.replicate_succ]
    | succ i => simp only [List.replicate_succ, List.getD_cons_succ]; exact ih i (by omega)

lemma runDischarge_zero_persists {load battery : ℚ} (hl : 0 ≤ load) (hb : 0 < battery) :
    ∀ (bs : List ℕ) (soc : ℚ) (i j : ℕ), i ≤ j → j < bs.length →
      (runDischarge load battery bs soc).1.getD i 1 = 0 →
      (runDischarge load battery bs soc).1.getD j 1 = 0 := by
  intro bs
  induction bs with
  | nil => intro soc i j _ hj _; simp at hj
  | cons b rest ih =>
    intro soc i j hij hj h0
    simp only [runDischarge] at h0 ⊢
    match i, j with
    | 0, 0 => exact h0
    | 0, j + 1 =>
      simp only [List.getD_cons_zero] at h0
      simp only [List.getD_cons_succ, h0, runDischarge_from_zero hl hb rest]
      exact getD_replicate_self 0 1 rest.length j (by simpa using hj)
    | i + 1, j + 1 =>
      simp only [List.getD_cons_succ] at h0 ⊢
      exact ih _ i j (by omega) (by simpa using hj) h0

lemma simulateSoc_getD_discharge (hw : HardwareConfig) (stages : List DimmingStage)
    (k : ℕ) (hk : k < sumDurations stages) (d : ℚ) :
    (simulateSoc hw stages).getD k d =
      (runDischarge hw.load_power_w hw.battery_capacity_wh (nightBrightness stages) 100).1.getD
        k d := by
  have hlen :
      (runDischarge hw.load_power_w hw.battery_capacity_wh (nightBrightness stages) 100).1.length =
        sumDurations stages := by
    rw [runDischarge_length, nightBrightness_length]
  simp only [simulateSoc]
  rw [List.getD_append _ _ _ _ (by simp only [List.length_append]; omega),
    List.getD_append _ _ _ _ (by simp only [List.length_append]; omega),
    List.getD_append _ _ _ _ (by omega)]

/-- C6: on a valid input, if some discharge-phase sample of the SOC
timeline is 0 then every later discharge-phase sample is 0 as well:
the SOC floors at 0 and a depleted battery stays depleted. -/
theorem C6_depleted_stays_zero (hw : HardwareConfig) (stages : List DimmingStage)
    (h1 : hw.Valid) (h2 : ValidStages stages) (i j : ℕ) (hij : i ≤ j)
    (hj : j < sumDurations stages)
    (h0 : (simulateSoc hw stages).getD i 1 = 0) :
    (simulateSoc hw stages).getD j 1 = 0 := by
  obtain ⟨_, hl, hb, _⟩ := h1
  have hi : i < sumDurations stages := lt_of_le_of_lt hij hj
  rw [simulateSoc_getD_discharge hw stages i hi 1] at h0
  rw [simulateSoc_getD_discharge hw stages j hj 1]
  have hlen : (nightBrightness stages).length = sumDurations stages := nightBrightness_length stages
  exact runDischarge_zero_persists hl.le hb (nightBrightness stages) 100 i j hij (by omega) h0

/-- C6 witness: Scenario B's 50 Wh battery is empty at hour 1 and the
theorem gives hour 2 still 0. -/
theorem C6_depleted_stays_zero_witness : (simulateSoc hwB stagesA).getD 2 1 = 0 :=
  C6_depleted_stays_zero hwB stagesA (by norm_num [hwB, HardwareConfig.Valid]) (by decide)
    1 2 (by norm_num) (by decide)
    (by norm_num [simulateSoc, runDischarge, nightBrightness, dischargeStep, chargeStep,
      runCharge, chargePerHour, hwB, stagesA, solar_efficiency, max_def, min_def])

/-- A valid schedule in which every stage is dark or zero-length, so the
total night energy is 0. -/
def stagesDark : List DimmingStage := [⟨0, 2⟩, ⟨100, 0⟩, ⟨0, 0⟩, ⟨0, 0⟩]

/-- The 5 charging-phase samples of the timeline: hours `max(discharge,16)`
through `max(discharge,16)+4`. -/
def chargeSegment (hw : HardwareConfig) (stages : List DimmingStage) : List ℚ :=
  ((simulateSoc hw stages).drop (max (sumDurations stages) 16)).take 5

lemma chargeSegment_eq (hw : HardwareConfig) (stages : List DimmingStage) :
    chargeSegment hw stages =
      (runCharge (chargePerHour hw) 5
        (runDischarge hw.load_power_w hw.battery_capacity_wh (nightBrightness stages) 100).2).1 := by
  have hDH :
      ((runDischarge hw.load_power_w hw.battery_capacity_wh (nightBrightness stages) 100).1 ++
          List.replicate
            (16 - (runDischarge hw.load_power_w hw.battery_capacity_wh
              (nightBrightness stages) 100).1.length)
            (runDischarge hw.load_power_w hw.battery_capacity_wh
              (nightBrightness stages) 100).2).length =
        max (sumDurations stages) 16 := by
    simp only [List.length_append, List.length_replicate, runDischarge_length,
      nightBrightness_length]
    omega
  have hC :
      (runCharge (chargePerHour hw) 5
        (runDischarge hw.load_power_w hw.battery_capacity_wh
          (nightBrightness stages) 100).2).1.length = 5 :=
    runCharge_length _ _ _
  unfold chargeSegment
  simp only [simulateSoc]
  rw [List.append_assoc, ← hDH, List.drop_left, List.take_left' hC]

/-- C7: the charging phase of the timeline is exactly 5 iterations of the
charging step from the post-discharge SOC, each step sets
`soc = min(soc + charge_per_hour, 100)`, and whenever the unclamped sum
exceeds 100 the appended sample equals exactly 100. -/
theorem C7_charging_clamps_at_100 (hw : HardwareConfig) (stages : List DimmingStage)
    (h1 : hw.Valid) (h2 : ValidStages stages) :
    chargeSegment hw stages =
      (runCharge (chargePerHour hw) 5
        (runDischarge hw.load_power_w hw.battery_capacity_wh (nightBrightness stages) 100).2).1 ∧
    (∀ soc : ℚ, chargeStep (chargePerHour hw) soc = min (soc + chargePerHour hw) 100) ∧
    (∀ soc : ℚ, 100 < soc + chargePerHour hw → chargeStep (chargePerHour hw) soc = 100) :=
  ⟨chargeSegment_eq hw stages, fun _ => rfl, fun _ h => min_eq_right h.le⟩

/-- C7 witness: Scenario C hardware (50 Wh battery, 120 W panel) has a
charging increment of 180 SOC points per hour, and a depleted battery
clamps to exactly 100 rather than 180. -/
theorem C7_charging_clamps_at_100_witness : chargeStep (chargePerHour hwB) 0 = 100 :=
  (C7_charging_clamps_at_100 hwB stagesA (by norm_num [hwB, HardwareConfig.Valid])
    (by decide)).2.2 0 (by norm_num [chargePerHour, hwB, solar_efficiency])

lemma stageEnergy_nonneg {load : ℚ} (hl : 0 ≤ load) (s : DimmingStage) :
    0 ≤ stageEnergy load s := by
  unfold stageEnergy
  split
  · have h1 : (0 : ℚ) ≤ (s.brightness_pct : ℚ) / 100 := by positivity
    exact mul_nonneg (mul_nonneg hl h1) (Nat.cast_nonneg _)
  · exact le_refl 0

lemma sum_eq_zero_of_nonneg {l : List ℚ} (h : ∀ x ∈ l, 0 ≤ x) (h0 : l.sum = 0) :
    ∀ x ∈ l, x = 0 := by
  induction l with
  | nil => intro x hx; simp at hx
  | cons a rest ih =>
    have ha : 0 ≤ a := h a (List.mem_cons_self a rest)
    have hrest : ∀ x ∈ rest, 0 ≤ x := fun x hx => h x (List.mem_cons_of_mem _ hx)
    have hsum : 0 ≤ rest.sum := List.sum_nonneg hrest
    rw [List.sum_cons] at h0
    intro x hx
    rcases List.mem_cons.mp hx with rfl | hx
    · linarith
    · exact ih hrest (by linarith) x hx

lemma stageEnergy_eq_zero_cases {load : ℚ} (hl : 0 < load) {s : DimmingStage}
    (h : stageEnergy load s = 0) : s.duration_hours = 0 ∨ s.brightness_pct = 0 := by
  by_contra hc
  push_neg at hc
  unfold stageEnergy at h
  rw [if_pos ⟨Nat.pos_of_ne_zero hc.1, Nat.pos_of_ne_zero hc.2⟩] at h
  have hb : (0 : ℚ) < (s.brightness_pct : ℚ) / 100 :=
    div_pos (by exact_mod_cast Nat.pos_of_ne_zero hc.2) (by norm_num)
  have hd : (0 : ℚ) < (s.duration_hours : ℚ) := by exact_mod_cast Nat.pos_of_ne_zero hc.1
  have := mul_pos (mul_pos hl hb) hd
  linarith

lemma nightBrightness_all_zero {stages : List DimmingStage}
    (h : ∀ s ∈ stages, s.duration_hours = 0 ∨ s.brightness_pct = 0) :
    ∀ b ∈ nightBrightness stages, b = 0 := by
  induction stages with
  | nil => intro b hb; simp [nightBrightness] at hb
  | cons s rest ih =>
    intro b hb
    simp only [nightBrightness, List.mem_append] at hb
    rcases hb with hb | hb
    · rcases h s (List.mem_cons_self s rest) with hd | hbr
      · rw [hd] at hb; simp at hb
      · rw [List.eq_of_mem_replicate hb, hbr]
    · exact ih (fun x hx => h x (List.mem_cons_of_mem _ hx)) b hb

lemma runDischarge_all_zero (load battery : ℚ) :
    ∀ bs : List ℕ, (∀ b ∈ bs, b = 0) →
      (runDischarge load battery bs 100).1 = List.replicate bs.length 100 ∧
      (runDischarge load battery bs 100).2 = 100 := by
  intro bs
  induction bs with
  | nil => exact fun _ => ⟨rfl, rfl⟩
  | cons b rest ih =>
    intro h
    have hb : b = 0 := h b (List.mem_cons_self b rest)
    subst hb
    have hstep : dischargeStep load battery 0 100 = 100 := by
      norm_num [dischargeStep]
    have hr := ih fun x hx => h x (List.mem_cons_of_mem _ hx)
    simp [runDischarge, hstep, hr.1, hr.2, List.replicate_succ]

lemma runCharge_from_100 {c : ℚ} (hc : 0 ≤ c) :
    ∀ n : ℕ, (runCharge c n 100).1 = List.replicate n 100 ∧ (runCharge c n 100).2 = 100 := by
  intro n
  induction n with
  | zero => exact ⟨rfl, rfl⟩
  | succ n ih =>
    have hstep : chargeStep c 100 = 100 := min_eq_right (by linarith)
    simp [runCharge, hstep, ih.1, ih.2, List.replicate_succ]

lemma simulateSoc_const_100 (hw : HardwareConfig) (stages : List DimmingStage)
    (hb : 0 < hw.battery_capacity_wh) (hs : 0 < hw.solar_panel_w)
    (hz : ∀ b ∈ nightBrightness stages, b = 0) :
    simulateSoc hw stages = List.replicate (max 24 (sumDurations stages + 5)) 100 := by
  have hD := runDischarge_all_zero hw.load_power_w hw.battery_capacity_wh
    (nightBrightness stages) hz
  have hC := runCharge_from_100 (chargePerHour_nonneg hs hb) 5
  simp only [simulateSoc, hD.1, hD.2, hC.1, hC.2, List.length_replicate, nightBrightness_length]
  rw [← List.replicate_add, ← List.replicate_add, ← List.replicate_add]
  congr 1
  omega

/-- C8: for every valid input whose total night energy is 0, the timeline
is 100 through hour 15, each pair of consecutive charging-phase samples is
nondecreasing and capped at 100, and all samples after the charging phase
equal the last charging-phase sample. -/
theorem C8_zero_load_flat (hw : HardwareConfig) (stages : List DimmingStage)
    (h1 : hw.Valid) (h2 : ValidStages stages)
    (h0 : totalEnergy hw.load_power_w stages = 0) :
    (∀ h, h < 16 → (simulateSoc hw stages).getD h 1 = 100) ∧
    (∀ k, k + 1 < 5 →
      (chargeSegment hw stages).getD k 1 ≤ (chargeSegment hw stages).getD (k + 1) 1) ∧
    (∀ k, k < 5 → (chargeSegment hw stages).getD k 1 ≤ 100) ∧
    (∀ m, max (sumDurations stages) 16 + 5 ≤ m → m < (simulateSoc hw stages).length →
      (simulateSoc hw stages).getD m 1 =
        (simulateSoc hw stages).getD (max (sumDurations stages) 16 + 4) 1) := by
  obtain ⟨_, hl, hb, hs⟩ := h1
  have hz : ∀ b ∈ nightBrightness stages, b = 0 := by
    apply nightBrightness_all_zero
    intro s hsm
    apply stageEnergy_eq_zero_cases hl
    exact sum_eq_zero_of_nonneg
      (fun x hx => by
        obtain ⟨t, _, rfl⟩ := List.mem_map.mp hx
        exact stageEnergy_nonneg hl.le t)
      h0 _ (List.mem_map_of_mem _ hsm)
  have hrep := simulateSoc_const_100 hw stages hb hs hz
  have hsegrep : chargeSegment hw stages = List.replicate 5 100 := by
    rw [chargeSegment_eq,
      (runDischarge_all_zero hw.load_power_w hw.battery_capacity_wh (nightBrightness stages)
        hz).2,
      (runCharge_from_100 (chargePerHour_nonneg hs hb) 5).1]
  refine ⟨?_, ?_, ?_, ?_⟩
  · intro h hh
    rw [hrep]
    exact getD_replicate_self 100 1 _ h (by omega)
  · intro k hk
    rw [hsegrep, getD_replicate_self 100 1 5 k (by omega),
      getD_replicate_self 100 1 5 (k + 1) (by omega)]
  · intro k hk
    rw [hsegrep, getD_replicate_self 100 1 5 k hk]
  · intro m hm hmlen
    rw [hrep] at hmlen ⊢
    rw [List.length_replicate] at hmlen
    rw [getD_replicate_self 100 1 _ m hmlen,
      getD_replicate_self 100 1 _ (max (sumDurations stages) 16 + 4) (by omega)]

/-- C8 witness: a valid schedule with only dark or zero-length stages on
Scenario A hardware; the theorem gives hour 3 equal to 100. -/
theorem C8_zero_load_flat_witness : (simulateSoc hwA stagesDark).getD 3 1 = 100 :=
  (C8_zero_load_flat hwA stagesDark (by norm_num [hwA, HardwareConfig.Valid]) (by decide)
    (by norm_num [totalEnergy, stageEnergy, hwA, stagesDark])).1 3 (by norm_num)

/-- C9: on every input within the documented ranges both engine functions
are total: every division has a non-zero divisor (`dod = 0.8`, voltage
from {12.8, 25.6}, battery capacity positive) and no error branch is
reachable, so the checked variants return `some` of the total results. -/
theorem C9_no_division_by_zero (hw : HardwareConfig) (stages : List DimmingStage)
    (h1 : hw.Valid) (h2 : ValidStages stages) :
    computeEnergyBalanceChecked hw stages = some (computeEnergyBalance hw stages) ∧
    simulateSocChecked hw stages = some (simulateSoc hw stages) := by
  obtain ⟨hv, hl, hb, hs⟩ := h1
  have hv0 : hw.system_voltage ≠ 0 := by
    rcases hv with h | h <;> rw [h] <;> norm_num
  constructor
  · unfold computeEnergyBalanceChecked
    rw [if_neg (by norm_num [dod]), if_neg hv0]
  · unfold simulateSocChecked
    rw [if_neg hb.ne']

/-- C9 witness: Scenario A reaches no error branch. -/
theorem C9_no_division_by_zero_witness :
    computeEnergyBalanceChecked hwA stagesA = some (computeEnergyBalance hwA stagesA) ∧
    simulateSocChecked hwA stagesA = some (simulateSoc hwA stagesA) :=
  C9_no_division_by_zero hwA stagesA (by norm_num [hwA, HardwareConfig.Valid]) (by decide)

/-- C10: two inputs identical except for the system voltage (12.8 V versus
25.6 V) get identical SOC timelines and identical energy-balance fields
except `required_battery_ah`: the voltage flows only into the Wh-to-Ah
conversion. -/
theorem C10_voltage_noninterference (hw1 hw2 : HardwareConfig) (stages : List DimmingStage)
    (hv1 : hw1.system_voltage = 12.8) (hv2 : hw2.system_voltage = 25.6)
    (hl : hw2.load_power_w = hw1.load_power_w)
    (hb : hw2.battery_capacity_wh = hw1.battery_capacity_wh)
    (hs : hw2.solar_panel_w = hw1.solar_panel_w) :
    simulateSoc hw2 stages = simulateSoc hw1 stages ∧
    (computeEnergyBalance hw2 stages).total_night_energy_wh =
      (computeEnergyBalance hw1 stages).total_night_energy_wh ∧
    (computeEnergyBalance hw2 stages).solar_recovery_wh =
      (computeEnergyBalance hw1 stages).solar_recovery_wh ∧
    (computeEnergyBalance hw2 stages).energy_balance_wh =
      (computeEnergyBalance hw1 stages).energy_balance_wh ∧
    (computeEnergyBalance hw2 stages).battery_remaining_wh =
      (computeEnergyBalance hw1 stages).battery_remaining_wh ∧
    (computeEnergyBalance hw2 stages).required_battery_wh =
      (computeEnergyBalance hw1 stages).required_battery_wh := by
  obtain ⟨v1, l1, b1, s1⟩ := hw1
  obtain ⟨v2, l2, b2, s2⟩ := hw2
  have hl2 : l2 = l1 := hl
  have hb2 : b2 = b1 := hb
  have hs2 : s2 = s1 := hs
  subst hl2 hb2 hs2
  exact ⟨rfl, rfl, rfl, rfl, rfl, rfl⟩

/-- Scenario A hardware at the other enumerated voltage. -/
def hwA2 : HardwareConfig := ⟨25.6, 40, 480, 120⟩

/-- C10 witness: the two Scenario A configurations share the SOC timeline. -/
theorem C10_voltage_noninterference_witness :
    simulateSoc hwA2 stagesA = simulateSoc hwA stagesA :=
  (C10_voltage_noninterference hwA hwA2 stagesA rfl rfl rfl rfl rfl).1

end SolarCal
